import Mathlib

/-!
Shallow embedding of the tile-based layer model of rust-layers
(src/layers.rs): content-version counter, layer-tree node, buffer
requests, tile buffers and tile-buffer sets.  Rust `f32` values are
modelled exactly over `ℚ`; `usize` over `ℕ`; interior-mutability cells
(`RefCell`) become explicit state passing, so every mutating method takes
a value and returns the updated value.  The external collaborators that
live outside src/ (the tile grid of the `tiling` module and the native
surface of the `platform` module) are modelled from the specification.
-/

/-- Two-dimensional point, after geom::point::Point2D (coordinate-space
type tags of TypedPoint2D are erased). -/
structure Point2D (α : Type) where
  x : α
  y : α
deriving DecidableEq, Repr

/-- Two-dimensional size, after geom::size::Size2D. -/
structure Size2D (α : Type) where
  width : α
  height : α
deriving DecidableEq, Repr

/-- Axis-aligned rectangle, after geom::rect::Rect. -/
structure Rect (α : Type) where
  origin : Point2D α
  size : Size2D α
deriving DecidableEq, Repr

/-- Scaling a point by a scale factor, after geom, componentwise. -/
def Point2D.scaleBy (p : Point2D ℚ) (s : ℚ) : Point2D ℚ :=
  Point2D.mk (p.x * s) (p.y * s)

/-- Scaling a size by a scale factor, after geom, componentwise. -/
def Size2D.scaleBy (sz : Size2D ℚ) (s : ℚ) : Size2D ℚ :=
  Size2D.mk (sz.width * s) (sz.height * s)

/-- Scaling a rectangle by a scale factor, after geom: origin and size are
both scaled (this is `rect * scale` in the source). -/
def Rect.scaleBy (r : Rect ℚ) (s : ℚ) : Rect ℚ :=
  Rect.mk (r.origin.scaleBy s) (r.size.scaleBy s)

/-- A 4x4 transform matrix, after geom::matrix::Matrix4 with its sixteen
f32 entries. -/
structure Matrix4 where
  m11 : ℚ
  m12 : ℚ
  m13 : ℚ
  m14 : ℚ
  m21 : ℚ
  m22 : ℚ
  m23 : ℚ
  m24 : ℚ
  m31 : ℚ
  m32 : ℚ
  m33 : ℚ
  m34 : ℚ
  m41 : ℚ
  m42 : ℚ
  m43 : ℚ
  m44 : ℚ
deriving DecidableEq, Repr

/-- The identity transform, after geom::matrix::identity. -/
def Matrix4.identity : Matrix4 :=
  Matrix4.mk 1 0 0 0 0 1 0 0 0 0 1 0 0 0 0 1

/-- An RGBA color, after color::Color. -/
structure Color where
  r : ℚ
  g : ℚ
  b : ℚ
  a : ℚ
deriving DecidableEq, Repr

/-- ContentAge (src/layers.rs lines 24-27): a monotonically increasing
counter tracking the current content generation of a layer. -/
structure ContentAge where
  age : ℕ
deriving DecidableEq, Repr

/-- ContentAge::new (src/layers.rs lines 30-34): starts at 0. -/
def ContentAge.new : ContentAge :=
  ContentAge.mk 0

/-- ContentAge::next (src/layers.rs lines 36-38): `self.age += 1`. -/
def ContentAge.next (c : ContentAge) : ContentAge :=
  ContentAge.mk (c.age + 1)

/-- BufferRequest (src/layers.rs lines 141-151): a request from the
compositor to the renderer for a tile that needs to be (re)displayed. -/
structure BufferRequest where
  screen_rect : Rect ℕ
  page_rect : Rect ℚ
  content_age : ContentAge
deriving DecidableEq, Repr

/-- BufferRequest::new (src/layers.rs lines 154-163). -/
def BufferRequest.new (screen_rect : Rect ℕ) (page_rect : Rect ℚ)
    (content_age : ContentAge) : BufferRequest :=
  BufferRequest.mk screen_rect page_rect content_age

/-- Modelled from the spec: platform::surface::NativeSurface is not under
src/; per the spec it is an opaque OS/GPU handle tracked by an external
leak detector, and `mark_will_leak` puts it into the leak-suppressed
state (tracker told not to flag it) while `mark_wont_leak` re-asserts
trackability.  Only the leak-marking state is observable here. -/
structure NativeSurface where
  will_leak : Bool
deriving DecidableEq, Repr

/-- Modelled from the spec: `mark_will_leak` moves the surface into the
leak-suppressed state. -/
def NativeSurface.mark_will_leak (_s : NativeSurface) : NativeSurface :=
  NativeSurface.mk true

/-- Modelled from the spec: `mark_wont_leak` puts the surface back into
the default, tracked state. -/
def NativeSurface.mark_wont_leak (_s : NativeSurface) : NativeSurface :=
  NativeSurface.mk false

/-- LayerBuffer (src/layers.rs lines 166-188): a painted tile's native
surface plus metadata. -/
structure LayerBuffer where
  native_surface : NativeSurface
  rect : Rect ℚ
  screen_pos : Rect ℕ
  resolution : ℚ
  stride : ℕ
  painted_with_cpu : Bool
  content_age : ContentAge
deriving DecidableEq, Repr

/-- LayerBuffer::get_mem (src/layers.rs lines 192-195): the memory-cost
heuristic `screen_pos.size.width * screen_pos.size.height`. -/
def LayerBuffer.get_mem (b : LayerBuffer) : ℕ :=
  b.screen_pos.size.width * b.screen_pos.size.height

/-- LayerBuffer::is_valid (src/layers.rs lines 198-200):
`(self.resolution - scale).abs() < 1.0e-6`, with f32 arithmetic modelled
exactly over ℚ. -/
def LayerBuffer.is_valid (b : LayerBuffer) (scale : ℚ) : Bool :=
  decide (|b.resolution - scale| < 1 / 1000000)

/-- LayerBuffer::get_size_2d (src/layers.rs lines 203-205). -/
def LayerBuffer.get_size_2d (b : LayerBuffer) : Size2D ℕ :=
  b.screen_pos.size

/-- LayerBuffer::mark_wont_leak (src/layers.rs lines 209-211): delegates
to the native surface. -/
def LayerBuffer.mark_wont_leak (b : LayerBuffer) : LayerBuffer :=
  { b with native_surface := b.native_surface.mark_wont_leak }

/-- LayerBufferSet (src/layers.rs lines 222-224): an atomic unit of layer
buffers used to switch between front and back buffers. -/
structure LayerBufferSet where
  buffers : List LayerBuffer
deriving DecidableEq, Repr

/-- LayerBufferSet::mark_will_leak (src/layers.rs lines 228-232):
iterates over the contained buffers and marks each one's native surface
as will-leak. -/
def LayerBufferSet.mark_will_leak (s : LayerBufferSet) : LayerBufferSet :=
  LayerBufferSet.mk
    (s.buffers.map (fun b =>
      { b with native_surface := b.native_surface.mark_will_leak }))

/-- Modelled from the spec: tiling::TileGrid is not under src/; per the
spec it is the per-layer collaborator that pools this layer's tile
buffers and partitions requested regions into tile-aligned requests.
Only the tile size is needed to model the request-generating contract. -/
structure TileGrid where
  tile_size : ℕ
deriving DecidableEq, Repr

/-- Modelled from the spec: TileGrid::new(tile_size). -/
def TileGrid.new (tile_size : ℕ) : TileGrid :=
  TileGrid.mk tile_size

/-- Modelled from the spec: the tile grid's
`get_buffer_requests_in_rect(deviceRect, deviceBoundsSize, contentVersion)`
partitions the device-pixel rectangle into tile-aligned buffer requests
of the grid's tile size and tags every produced request with the supplied
content version.  The clamping of requests against the device bounds size
and the pooling of already-painted tiles are left abstract: the grid
covers the requested rectangle with whole tiles, which suffices for the
tagging and state-isolation contracts verified here. -/
def TileGrid.get_buffer_requests_in_rect (g : TileGrid) (deviceRect : Rect ℚ)
    (_deviceBoundsSize : Size2D ℚ) (age : ContentAge) :
    List BufferRequest × TileGrid :=
  let ts : ℕ := g.tile_size
  let x0 : ℤ := ⌊deviceRect.origin.x / (ts : ℚ)⌋
  let y0 : ℤ := ⌊deviceRect.origin.y / (ts : ℚ)⌋
  let x1 : ℤ := ⌈(deviceRect.origin.x + deviceRect.size.width) / (ts : ℚ)⌉
  let y1 : ℤ := ⌈(deviceRect.origin.y + deviceRect.size.height) / (ts : ℚ)⌉
  let cols : ℕ := (x1 - x0).toNat
  let rows : ℕ := (y1 - y0).toNat
  ((List.range cols).flatMap (fun i =>
    (List.range rows).map (fun j =>
      BufferRequest.new
        (Rect.mk (Point2D.mk ((x0 + i).toNat * ts) ((y0 + j).toNat * ts))
          (Size2D.mk ts ts))
        (Rect.mk (Point2D.mk (((x0 + i) * ts : ℤ) : ℚ) (((y0 + j) * ts : ℤ) : ℚ))
          (Size2D.mk (ts : ℚ) (ts : ℚ)))
        age)),
   g)

/-- Layer (src/layers.rs lines 41-65): a layer-tree node.  The Rust
struct wraps most fields in RefCell and the children in Rc; values are
modelled directly and every mutating method returns the updated layer.
The constructor's field order follows the struct declaration order. -/
inductive Layer (T : Type) : Type where
  | mk
    (children : List (Layer T))
    (transform : Matrix4)
    (tile_size : ℕ)
    (extra_data : T)
    (tile_grid : TileGrid)
    (bounds : Rect ℚ)
    (content_age : ContentAge)
    (content_offset : Point2D ℚ)
    (masks_to_bounds : Bool)
    (background_color : Color)
    (opacity : ℚ) : Layer T

/-- The layer's child sequence. -/
def Layer.children {T : Type} : Layer T → List (Layer T)
  | Layer.mk c _ _ _ _ _ _ _ _ _ _ => c

/-- The layer's transform. -/
def Layer.transform {T : Type} : Layer T → Matrix4
  | Layer.mk _ tr _ _ _ _ _ _ _ _ _ => tr

/-- The layer's tile size. -/
def Layer.tile_size {T : Type} : Layer T → ℕ
  | Layer.mk _ _ ts _ _ _ _ _ _ _ _ => ts

/-- The layer's opaque payload. -/
def Layer.extra_data {T : Type} : Layer T → T
  | Layer.mk _ _ _ ed _ _ _ _ _ _ _ => ed

/-- The layer's tile-grid collaborator. -/
def Layer.tile_grid {T : Type} : Layer T → TileGrid
  | Layer.mk _ _ _ _ tg _ _ _ _ _ _ => tg

/-- The layer's bounds in the parent's coordinate system. -/
def Layer.bounds {T : Type} : Layer T → Rect ℚ
  | Layer.mk _ _ _ _ _ b _ _ _ _ _ => b

/-- The layer's current content age. -/
def Layer.content_age {T : Type} : Layer T → ContentAge
  | Layer.mk _ _ _ _ _ _ ca _ _ _ _ => ca

/-- The layer's content offset. -/
def Layer.content_offset {T : Type} : Layer T → Point2D ℚ
  | Layer.mk _ _ _ _ _ _ _ co _ _ _ => co

/-- Whether the layer clips its children to its boundaries. -/
def Layer.masks_to_bounds {T : Type} : Layer T → Bool
  | Layer.mk _ _ _ _ _ _ _ _ mb _ _ => mb

/-- The layer's background color. -/
def Layer.background_color {T : Type} : Layer T → Color
  | Layer.mk _ _ _ _ _ _ _ _ _ bg _ => bg

/-- The layer's opacity. -/
def Layer.opacity {T : Type} : Layer T → ℚ
  | Layer.mk _ _ _ _ _ _ _ _ _ _ op => op

/-- Layer::new (src/layers.rs lines 68-87): empty children, identity
transform, the given bounds, tile size, payload, a fresh tile grid of the
same tile size, content age 0, masks_to_bounds false, zero content
offset, the given background color and opacity. -/
def Layer.new {T : Type} (bounds : Rect ℚ) (tile_size : ℕ)
    (background_color : Color) (opacity : ℚ) (data : T) : Layer T :=
  Layer.mk [] Matrix4.identity tile_size data (TileGrid.new tile_size)
    bounds ContentAge.new (Point2D.mk 0 0) false background_color opacity

/-- Layer::add_child (src/layers.rs lines 93-95): pushes the new child
onto the end of the children vector. -/
def Layer.add_child {T : Type} : Layer T → Layer T → Layer T
  | Layer.mk c tr ts ed tg b ca co mb bg op, new_child =>
      Layer.mk (c ++ [new_child]) tr ts ed tg b ca co mb bg op

/-- Layer::remove_child_at_index (src/layers.rs lines 97-99):
`self.children().remove(index)`.  Vec::remove panics when the index is
out of bounds; the panic is modelled as `none`. -/
def Layer.remove_child_at_index {T : Type} : Layer T → ℕ → Option (Layer T)
  | Layer.mk c tr ts ed tg b ca co mb bg op, index =>
      if index < c.length then
        some (Layer.mk (c.eraseIdx index) tr ts ed tg b ca co mb bg op)
      else
        none

/-- Layer::get_buffer_requests (src/layers.rs lines 101-109): scales the
requested rectangle and the layer's bounds size to device pixels and
delegates to the mutably-borrowed tile grid, passing the layer's current
content age; every field of the layer other than the tile grid is only
read. -/
def Layer.get_buffer_requests {T : Type} :
    Layer T → Rect ℚ → ℚ → List BufferRequest × Layer T
  | Layer.mk c tr ts ed tg b ca co mb bg op, rect_in_layer, scale =>
      let result := tg.get_buffer_requests_in_rect (rect_in_layer.scaleBy scale)
        (b.size.scaleBy scale) ca
      (result.1, Layer.mk c tr ts ed result.2 b ca co mb bg op)

/-- Layer::resize (src/layers.rs lines 111-113): replaces only the size
component of bounds. -/
def Layer.resize {T : Type} : Layer T → Size2D ℚ → Layer T
  | Layer.mk c tr ts ed tg b ca co mb bg op, new_size =>
      Layer.mk c tr ts ed tg (Rect.mk b.origin new_size) ca co mb bg op

/-- Layer::contents_changed (src/layers.rs lines 127-129): advances the
content age. -/
def Layer.contents_changed {T : Type} : Layer T → Layer T
  | Layer.mk c tr ts ed tg b ca co mb bg op =>
      Layer.mk c tr ts ed tg b ca.next co mb bg op

/-- One call to contents_changed advances the content version by one. -/
theorem Layer.contents_changed_age {T : Type} (l : Layer T) :
    (l.contents_changed).content_age.age = l.content_age.age + 1 := by
  cases l
  rfl

/-- Iterating contents_changed n times advances the content version by n. -/
theorem Layer.contents_changed_iterate_age {T : Type} (l : Layer T) (n : ℕ) :
    (Layer.contents_changed^[n] l).content_age.age = l.content_age.age + n := by
  induction n generalizing l with
  | zero => rfl
  | succ n ih =>
      rw [Function.iterate_succ_apply, ih, Layer.contents_changed_age]
      omega

/-- Every request produced by the tile grid is tagged with the supplied
content version. -/
theorem TileGrid.content_age_of_request (g : TileGrid) (deviceRect : Rect ℚ)
    (dbs : Size2D ℚ) (age : ContentAge) (r : BufferRequest)
    (h : r ∈ (g.get_buffer_requests_in_rect deviceRect dbs age).1) :
    r.content_age = age := by
  simp only [TileGrid.get_buffer_requests_in_rect, List.mem_flatMap,
    List.mem_range, List.mem_map] at h
  obtain ⟨i, -, j, -, rfl⟩ := h
  rfl

/-- A sample background color. -/
def sampleColor : Color :=
  Color.mk 0 0 0 1

/-- A sample 800 by 600 rectangle at the origin. -/
def sampleRect : Rect ℚ :=
  Rect.mk (Point2D.mk 0 0) (Size2D.mk 800 600)

/-- A sample layer with 800 by 600 bounds and tile size 256. -/
def sampleLayer : Layer Unit :=
  Layer.new sampleRect 256 sampleColor 1 ()

/-- A sample child layer. -/
def sampleChildA : Layer Unit :=
  Layer.new (Rect.mk (Point2D.mk 0 0) (Size2D.mk 1 1)) 256 sampleColor 1 ()

/-- A second sample child layer. -/
def sampleChildB : Layer Unit :=
  Layer.new (Rect.mk (Point2D.mk 0 0) (Size2D.mk 2 2)) 256 sampleColor 1 ()

/-- A third sample child layer. -/
def sampleChildC : Layer Unit :=
  Layer.new (Rect.mk (Point2D.mk 0 0) (Size2D.mk 3 3)) 256 sampleColor 1 ()

/-- A sample layer holding three children, appended in order. -/
def sampleParent : Layer Unit :=
  ((sampleLayer.add_child sampleChildA).add_child sampleChildB).add_child
    sampleChildC

/-- The first buffer request the sample layer produces for its full
bounds at scale 1. -/
def sampleRequest : BufferRequest :=
  BufferRequest.new (Rect.mk (Point2D.mk 0 0) (Size2D.mk 256 256))
    (Rect.mk (Point2D.mk 0 0) (Size2D.mk 256 256)) ContentAge.new

/-- A sample buffer with a 10 by 20 screen rectangle at resolution 1. -/
def sampleBuffer1 : LayerBuffer :=
  LayerBuffer.mk (NativeSurface.mk false)
    (Rect.mk (Point2D.mk 0 0) (Size2D.mk 10 20))
    (Rect.mk (Point2D.mk 0 0) (Size2D.mk 10 20)) 1 10 false ContentAge.new

/-- A second sample buffer. -/
def sampleBuffer2 : LayerBuffer :=
  LayerBuffer.mk (NativeSurface.mk false)
    (Rect.mk (Point2D.mk 0 0) (Size2D.mk 30 40))
    (Rect.mk (Point2D.mk 0 0) (Size2D.mk 30 40)) 2 30 true (ContentAge.mk 1)

/-- A third sample buffer. -/
def sampleBuffer3 : LayerBuffer :=
  LayerBuffer.mk (NativeSurface.mk false)
    (Rect.mk (Point2D.mk 0 0) (Size2D.mk 50 60))
    (Rect.mk (Point2D.mk 0 0) (Size2D.mk 50 60)) 3 50 false (ContentAge.mk 2)

/-- A sample buffer whose resolution differs from scale 1 by exactly
1.0e-6. -/
def sampleBoundaryBuffer : LayerBuffer :=
  LayerBuffer.mk (NativeSurface.mk false)
    (Rect.mk (Point2D.mk 0 0) (Size2D.mk 256 256))
    (Rect.mk (Point2D.mk 0 0) (Size2D.mk 256 256)) (1000001 / 1000000) 256
    false ContentAge.new

/-- A sample set of three buffers. -/
def sampleSet3 : LayerBufferSet :=
  LayerBufferSet.mk [sampleBuffer1, sampleBuffer2, sampleBuffer3]

/-- The first sample buffer after its surface was marked will-leak. -/
def sampleMarked1 : LayerBuffer :=
  { sampleBuffer1 with native_surface := NativeSurface.mk true }

attribute [local semireducible] Rat.mul Rat.add Rat.sub Rat.inv

/-- Claim C2: for every layer and every n, calling contents_changed n
times starting from content version v leaves the layer at version v + n;
each single call advances the version by exactly 1 and the version never
decreases. -/
theorem claim_C2_contents_changed_adds_n {T : Type} (l : Layer T) (n : ℕ) :
    (Layer.contents_changed^[n] l).content_age.age = l.content_age.age + n ∧
    (l.contents_changed).content_age.age = l.content_age.age + 1 ∧
    l.content_age.age ≤ (Layer.contents_changed^[n] l).content_age.age := by
  refine ⟨Layer.contents_changed_iterate_age l n,
    Layer.contents_changed_age l, ?_⟩
  rw [Layer.contents_changed_iterate_age l n]
  omega

/-- Claim C3: a layer constructed by new has content version 0, the
identity transform, a zero content offset, an empty child sequence and
masks_to_bounds false, while bounds, tile size, background color, opacity
and payload equal the given arguments. -/
theorem claim_C3_new_layer_fields {T : Type} (bounds : Rect ℚ) (tile_size : ℕ)
    (background_color : Color) (opacity : ℚ) (data : T) :
    (Layer.new bounds tile_size background_color opacity data).content_age
        = ContentAge.mk 0 ∧
    (Layer.new bounds tile_size background_color opacity data).transform
        = Matrix4.identity ∧
    (Layer.new bounds tile_size background_color opacity data).content_offset
        = Point2D.mk 0 0 ∧
    (Layer.new bounds tile_size background_color opacity data).children = [] ∧
    (Layer.new bounds tile_size background_color opacity data).masks_to_bounds
        = false ∧
    (Layer.new bounds tile_size background_color opacity data).bounds = bounds ∧
    (Layer.new bounds tile_size background_color opacity data).tile_size
        = tile_size ∧
    (Layer.new bounds tile_size background_color opacity data).background_color
        = background_color ∧
    (Layer.new bounds tile_size background_color opacity data).opacity
        = opacity ∧
    (Layer.new bounds tile_size background_color opacity data).extra_data
        = data :=
  ⟨rfl, rfl, rfl, rfl, rfl, rfl, rfl, rfl, rfl, rfl⟩

/-- Claim C5: add_child appends at the end of the child sequence, so
child order is insertion order; from an empty layer, adding a, b, c
yields children [a, b, c] and removing index 1 then yields [a, c]. -/
theorem claim_C5_add_child_order {T : Type} (l : Layer T) (a b c : Layer T)
    (h : l.children = []) :
    (∀ ch : Layer T, (l.add_child ch).children = l.children ++ [ch]) ∧
    (((l.add_child a).add_child b).add_child c).children = [a, b, c] ∧
    ∃ l2, (((l.add_child a).add_child b).add_child c).remove_child_at_index 1
        = some l2 ∧ l2.children = [a, c] := by
  cases l with
  | mk ch tr ts ed tg bd ca co mb bg op =>
      simp only [Layer.children] at h
      subst h
      exact ⟨fun ch2 => rfl, rfl, ⟨_, rfl, rfl⟩⟩

/-- Claim C5 witness: the concrete scenario on the sample layer. -/
theorem claim_C5_witness :
    sampleLayer.children = [] ∧
    ((∀ ch : Layer Unit, (sampleLayer.add_child ch).children
        = sampleLayer.children ++ [ch]) ∧
     (((sampleLayer.add_child sampleChildA).add_child sampleChildB).add_child
        sampleChildC).children = [sampleChildA, sampleChildB, sampleChildC] ∧
     ∃ l2, (((sampleLayer.add_child sampleChildA).add_child
        sampleChildB).add_child sampleChildC).remove_child_at_index 1
          = some l2 ∧ l2.children = [sampleChildA, sampleChildC]) :=
  ⟨rfl, claim_C5_add_child_order sampleLayer sampleChildA sampleChildB
    sampleChildC rfl⟩

/-- Claim C6: resize sets bounds.size to the new size and changes nothing
else. -/
theorem claim_C6_resize_only_size {T : Type} (l : Layer T)
    (new_size : Size2D ℚ) :
    (l.resize new_size).bounds.size = new_size ∧
    (l.resize new_size).bounds.origin = l.bounds.origin ∧
    (l.resize new_size).transform = l.transform ∧
    (l.resize new_size).content_offset = l.content_offset ∧
    (l.resize new_size).content_age = l.content_age ∧
    (l.resize new_size).children = l.children ∧
    (l.resize new_size).masks_to_bounds = l.masks_to_bounds ∧
    (l.resize new_size).background_color = l.background_color ∧
    (l.resize new_size).opacity = l.opacity ∧
    (l.resize new_size).tile_size = l.tile_size ∧
    (l.resize new_size).extra_data = l.extra_data ∧
    (l.resize new_size).tile_grid = l.tile_grid := by
  cases l
  exact ⟨rfl, rfl, rfl, rfl, rfl, rfl, rfl, rfl, rfl, rfl, rfl, rfl⟩

/-- Claim C4: remove_child_at_index with an out-of-range index is fatal
(modelled as none) and never silently no-ops; for every in-range index it
removes exactly the i-th child, shifting subsequent children down by one,
and changes nothing else. -/
theorem claim_C4_remove_child_contract {T : Type} (l : Layer T) (i : ℕ) :
    (l.children.length ≤ i → l.remove_child_at_index i = none) ∧
    (i < l.children.length →
      ∃ l2, l.remove_child_at_index i = some l2 ∧
        l2.children = l.children.take i ++ l.children.drop (i + 1) ∧
        l2.children.length + 1 = l.children.length ∧
        l2.transform = l.transform ∧ l2.bounds = l.bounds ∧
        l2.content_age = l.content_age ∧
        l2.content_offset = l.content_offset ∧
        l2.masks_to_bounds = l.masks_to_bounds ∧
        l2.background_color = l.background_color ∧
        l2.opacity = l.opacity ∧ l2.tile_size = l.tile_size ∧
        l2.extra_data = l.extra_data ∧ l2.tile_grid = l.tile_grid) := by
  cases l with
  | mk ch tr ts ed tg bd ca co mb bg op =>
      simp only [Layer.children, Layer.remove_child_at_index]
      constructor
      · intro h
        rw [if_neg (by omega)]
      · intro h
        rw [if_pos h]
        have he : ch.eraseIdx i = ch.take i ++ ch.drop (i + 1) :=
          List.eraseIdx_eq_take_drop_succ ch i
        refine ⟨_, rfl, ?_, ?_, rfl, rfl, rfl, rfl, rfl, rfl, rfl, rfl,
          rfl, rfl⟩
        · simp only [Layer.children]
          exact he
        · simp only [Layer.children]
          rw [he]
          simp only [List.length_append, List.length_take, List.length_drop]
          omega

/-- Claim C4 witness: on the sample parent with three children, index 5
aborts and index 1 removes exactly the second child. -/
theorem claim_C4_witness :
    sampleParent.remove_child_at_index 5 = none ∧
    (∃ l2, sampleParent.remove_child_at_index 1 = some l2 ∧
      l2.children = sampleParent.children.take 1
          ++ sampleParent.children.drop (1 + 1) ∧
      l2.children.length + 1 = sampleParent.children.length ∧
      l2.transform = sampleParent.transform ∧
      l2.bounds = sampleParent.bounds ∧
      l2.content_age = sampleParent.content_age ∧
      l2.content_offset = sampleParent.content_offset ∧
      l2.masks_to_bounds = sampleParent.masks_to_bounds ∧
      l2.background_color = sampleParent.background_color ∧
      l2.opacity = sampleParent.opacity ∧
      l2.tile_size = sampleParent.tile_size ∧
      l2.extra_data = sampleParent.extra_data ∧
      l2.tile_grid = sampleParent.tile_grid) :=
  ⟨(claim_C4_remove_child_contract sampleParent 5).1 (by decide),
   (claim_C4_remove_child_contract sampleParent 1).2 (by decide)⟩

/-- Claim C1: every buffer request returned by get_buffer_requests
carries the layer's content version at call time, and that captured value
is one less than the layer's version after a subsequent contents_changed,
so a later invalidation leaves already-issued requests unchanged. -/
theorem claim_C1_request_snapshot {T : Type} (l : Layer T)
    (rect_in_layer : Rect ℚ) (scale : ℚ) :
    ∀ r ∈ (l.get_buffer_requests rect_in_layer scale).1,
      r.content_age = l.content_age ∧
      (((l.get_buffer_requests rect_in_layer scale).2).contents_changed).content_age.age
          = l.content_age.age + 1 ∧
      r.content_age.age + 1 =
        (((l.get_buffer_requests rect_in_layer scale).2).contents_changed).content_age.age := by
  cases l with
  | mk ch tr ts ed tg bd ca co mb bg op =>
      intro r hr
      have h1 : r.content_age = ca :=
        TileGrid.content_age_of_request tg (rect_in_layer.scaleBy scale)
          (bd.size.scaleBy scale) ca r hr
      refine ⟨h1, rfl, ?_⟩
      rw [h1]
      rfl

/-- Claim C1 witness: the sample layer queried over its full bounds at
scale 1 returns a request tagged with version 0, and a contents_changed
right after the call leaves that tag one behind the layer. -/
theorem claim_C1_witness :
    sampleRequest ∈ (sampleLayer.get_buffer_requests sampleRect 1).1 ∧
    (sampleRequest.content_age = sampleLayer.content_age ∧
     (((sampleLayer.get_buffer_requests sampleRect 1).2).contents_changed).content_age.age
        = sampleLayer.content_age.age + 1 ∧
     sampleRequest.content_age.age + 1 =
       (((sampleLayer.get_buffer_requests sampleRect 1).2).contents_changed).content_age.age) :=
  ⟨by decide, claim_C1_request_snapshot sampleLayer sampleRect 1 sampleRequest
    (by decide)⟩

/-- Claim C10: get_buffer_requests is a read-only query of the layer
itself: after the call every field other than the delegated-to tile grid
is unchanged; in particular the content version does not advance. -/
theorem claim_C10_requests_leave_layer_unchanged {T : Type} (l : Layer T)
    (rect_in_layer : Rect ℚ) (scale : ℚ) :
    ((l.get_buffer_requests rect_in_layer scale).2).content_age
        = l.content_age ∧
    ((l.get_buffer_requests rect_in_layer scale).2).bounds = l.bounds ∧
    ((l.get_buffer_requests rect_in_layer scale).2).transform = l.transform ∧
    ((l.get_buffer_requests rect_in_layer scale).2).content_offset
        = l.content_offset ∧
    ((l.get_buffer_requests rect_in_layer scale).2).children = l.children ∧
    ((l.get_buffer_requests rect_in_layer scale).2).masks_to_bounds
        = l.masks_to_bounds ∧
    ((l.get_buffer_requests rect_in_layer scale).2).background_color
        = l.background_color ∧
    ((l.get_buffer_requests rect_in_layer scale).2).opacity = l.opacity ∧
    ((l.get_buffer_requests rect_in_layer scale).2).tile_size = l.tile_size ∧
    ((l.get_buffer_requests rect_in_layer scale).2).extra_data
        = l.extra_data := by
  cases l
  exact ⟨rfl, rfl, rfl, rfl, rfl, rfl, rfl, rfl, rfl, rfl⟩

/-- Claim C7: is_valid is true exactly when the absolute difference
between the buffer's resolution and the scale is strictly below 1.0e-6,
and in particular false when the difference equals exactly 1.0e-6. -/
theorem claim_C7_is_valid_iff (b : LayerBuffer) (scale : ℚ) :
    (b.is_valid scale = true ↔ |b.resolution - scale| < 1 / 1000000) ∧
    (|b.resolution - scale| = 1 / 1000000 → b.is_valid scale = false) := by
  constructor
  · simp [LayerBuffer.is_valid]
  · intro h
    have hnot : ¬ (|b.resolution - scale| < 1 / 1000000) := by
      rw [h]
      exact lt_irrefl _
    simp only [LayerBuffer.is_valid, decide_eq_false_iff_not]
    exact hnot

/-- Claim C7 witness: a buffer whose resolution differs from the scale by
exactly 1.0e-6 is judged invalid. -/
theorem claim_C7_witness :
    |sampleBoundaryBuffer.resolution - 1| = 1 / 1000000 ∧
    sampleBoundaryBuffer.is_valid 1 = false :=
  ⟨by decide,
   (claim_C7_is_valid_iff sampleBoundaryBuffer 1).2 (by decide)⟩

/-- Claim C8: mark_will_leak on a buffer set puts every contained buffer
into the leak-suppressed state. -/
theorem claim_C8_mark_will_leak_all (s : LayerBufferSet) :
    ∀ b ∈ (s.mark_will_leak).buffers, b.native_surface.will_leak = true := by
  intro b hb
  simp only [LayerBufferSet.mark_will_leak, List.mem_map] at hb
  obtain ⟨a, -, rfl⟩ := hb
  rfl

/-- Claim C8 witness: in a three-buffer set, after mark_will_leak the set
still holds three buffers and a member buffer is leak-suppressed. -/
theorem claim_C8_witness :
    (sampleSet3.mark_will_leak).buffers.length = 3 ∧
    sampleMarked1 ∈ (sampleSet3.mark_will_leak).buffers ∧
    sampleMarked1.native_surface.will_leak = true :=
  ⟨rfl, by decide,
   claim_C8_mark_will_leak_all sampleSet3 sampleMarked1 (by decide)⟩

/-- Claim C9: get_mem returns the product of the width and height of the
buffer's screen-position rectangle; a 10 by 20 screen rectangle yields
200. -/
theorem claim_C9_get_mem_product (b : LayerBuffer) :
    b.get_mem = b.screen_pos.size.width * b.screen_pos.size.height ∧
    (b.screen_pos.size.width = 10 → b.screen_pos.size.height = 20 →
      b.get_mem = 200) := by
  refine ⟨rfl, ?_⟩
  intro h1 h2
  simp [LayerBuffer.get_mem, h1, h2]

/-- Claim C9 witness: the sample buffer with a 10 by 20 screen rectangle
reports 200. -/
theorem claim_C9_witness :
    sampleBuffer1.screen_pos.size.width = 10 ∧
    sampleBuffer1.screen_pos.size.height = 20 ∧
    sampleBuffer1.get_mem = 200 :=
  ⟨rfl, rfl, (claim_C9_get_mem_product sampleBuffer1).2 rfl rfl⟩
